import Mathlib

/-!
Verification of the LingoPop language-learning assistant against its
specification.  The definitions below are a shallow embedding of the
TypeScript source: the data model of `types.ts`, the notebook store and
lookup orchestration of `App.tsx`, the collaborator wrappers of
`services/geminiService.ts`, the chat submission handler of
`components/ResultCard.tsx`, the story-weaving entry point of
`components/NotebookView.tsx`, and the persistence initializers.
-/

namespace LingoPop

/-- One example sentence pair, from `types.ts` (`ExampleSentence`). -/
structure ExampleSentence where
  original : String
  translated : String
deriving DecidableEq, Repr

/-- One conjugated form, from `types.ts` (`ConjugationForm`). -/
structure ConjugationForm where
  pronoun : String
  form : String
deriving DecidableEq, Repr

/-- Verb conjugation block, from `types.ts` (`Conjugation`). -/
structure Conjugation where
  infinitive : String
  tenseName : String
  forms : List ConjugationForm
deriving DecidableEq, Repr

/-- The atomic result record, from `types.ts` (`DictionaryResult`).
`timestamp` is `Date.now` modelled as a natural number. -/
structure DictionaryResult where
  word : String
  explanation : String
  examples : List ExampleSentence
  friendlyNote : String
  conjugations : Option Conjugation
  imageUrl : Option String
  timestamp : Nat
  sourceLang : String
  targetLang : String
deriving DecidableEq, Repr

/-- A saved notebook entry, from `types.ts` (`SavedItem extends
DictionaryResult`): all the fields of the result plus an `id`. -/
structure SavedItem extends DictionaryResult where
  id : String
deriving DecidableEq, Repr

/-- The spread-plus-id construction `{ ...item, id }` used by `saveItem`
in `App.tsx`. -/
def withId (r : DictionaryResult) (freshId : String) : SavedItem :=
  { toDictionaryResult := r, id := freshId }

/-- `saveItem` from `App.tsx`:
`if (savedItems.some(i => i.word === item.word)) return;`
`const newItem = { ...item, id: crypto.randomUUID() };`
`setSavedItems(prev => [newItem, ...prev]);`
The fresh uuid is passed explicitly. -/
def saveItem (savedItems : List SavedItem) (item : DictionaryResult)
    (freshId : String) : List SavedItem :=
  if savedItems.any (fun i => i.word == item.word) then savedItems
  else withId item freshId :: savedItems

/-- `deleteItem` from `App.tsx`:
`setSavedItems(prev => prev.filter(i => i.id !== id))`. -/
def deleteItem (savedItems : List SavedItem) (targetId : String) :
    List SavedItem :=
  savedItems.filter (fun i => i.id != targetId)

/-- Number of notebook entries whose `word` equals `w`. -/
def wordCount (savedItems : List SavedItem) (w : String) : Nat :=
  (savedItems.filter (fun i => i.word == w)).length

/-- Notebook states reachable through the store's own operations,
starting from the empty collection. -/
inductive Reachable : List SavedItem → Prop
  | nil : Reachable []
  | save (s : List SavedItem) (r : DictionaryResult) (freshId : String) :
      Reachable s → Reachable (saveItem s r freshId)
  | del (s : List SavedItem) (targetId : String) :
      Reachable s → Reachable (deleteItem s targetId)

/-- A small concrete result used in concrete evaluations. -/
def sampleResult (w e : String) : DictionaryResult :=
  { word := w, explanation := e, examples := [], friendlyNote := "",
    conjugations := none, imageUrl := none, timestamp := 0,
    sourceLang := "English", targetLang := "Spanish" }

lemma saveItem_of_present (s : List SavedItem) (r : DictionaryResult)
    (freshId : String) (h : s.any (fun i => i.word == r.word) = true) :
    saveItem s r freshId = s := by
  simp [saveItem, h]

lemma saveItem_of_absent (s : List SavedItem) (r : DictionaryResult)
    (freshId : String) (h : s.any (fun i => i.word == r.word) = false) :
    saveItem s r freshId = withId r freshId :: s := by
  simp [saveItem, h]

lemma any_word_eq_false_iff (s : List SavedItem) (w : String) :
    s.any (fun i => i.word == w) = false ↔ wordCount s w = 0 := by
  simp [wordCount, List.length_eq_zero, List.filter_eq_nil_iff,
    List.any_eq_true]

lemma wordCount_cons (i : SavedItem) (s : List SavedItem) (w : String) :
    wordCount (i :: s) w =
      (if i.word == w then 1 else 0) + wordCount s w := by
  by_cases h : i.word == w
  · simp [wordCount, List.filter_cons, h]; omega
  · simp [wordCount, List.filter_cons, h]

lemma wordCount_le_of_reachable (s : List SavedItem) (hs : Reachable s)
    (w : String) : wordCount s w ≤ 1 := by
  induction hs with
  | nil => simp [wordCount]
  | save t r freshId _ ih =>
      by_cases h : t.any (fun i => i.word == r.word) = true
      · rw [saveItem_of_present t r freshId h]; exact ih
      · rw [saveItem_of_absent t r freshId (by simpa using h)]
        rw [wordCount_cons]
        by_cases hw : (withId r freshId).word == w
        · have hzero : wordCount t r.word = 0 :=
            (any_word_eq_false_iff t r.word).mp (by simpa using h)
          have hww : r.word = w := by simpa [withId] using hw
          rw [if_pos hw, ← hww, hzero]
        · simpa [hw] using ih
  | del t targetId _ ih =>
      calc wordCount (deleteItem t targetId) w
          ≤ wordCount t w := by
            simpa [wordCount, deleteItem] using
              List.Sublist.length_le
                (List.Sublist.filter (fun i => i.word == w)
                  (List.filter_sublist t))
        _ ≤ 1 := ih

/-- Claim C8: delete is idempotent and total: deleting the same id twice
is a no-op the second time, and deleting an id absent from the notebook
leaves the notebook unchanged rather than raising an error (the filter
always produces a value, so the operation never fails). -/
theorem c8_delete_idempotent_total (s : List SavedItem) (targetId : String) :
    deleteItem (deleteItem s targetId) targetId = deleteItem s targetId ∧
    ((∀ i ∈ s, i.id ≠ targetId) → deleteItem s targetId = s) := by
  constructor
  · simp [deleteItem, List.filter_filter]
  · intro habs
    exact List.filter_eq_self.mpr fun i hi => by
      simpa using habs i hi

/-- Concrete instantiation of the C8 theorem. -/
theorem c8_witness :
    (∀ i ∈ [withId (sampleResult "sol" "sun") "id0"], i.id ≠ "other") ∧
    (deleteItem (deleteItem [withId (sampleResult "sol" "sun") "id0"] "other")
        "other"
      = deleteItem [withId (sampleResult "sol" "sun") "id0"] "other" ∧
    ((∀ i ∈ [withId (sampleResult "sol" "sun") "id0"], i.id ≠ "other") →
      deleteItem [withId (sampleResult "sol" "sun") "id0"] "other"
        = [withId (sampleResult "sol" "sun") "id0"])) :=
  ⟨by decide,
   c8_delete_idempotent_total [withId (sampleResult "sol" "sun") "id0"] "other"⟩

/-- Claim C2: save is idempotent on `word`: on any notebook state reachable
through the store's operations, saving two results with the same `word`
(case-sensitive exact match), in either order, leaves exactly one entry for
that word, and saving a duplicate headword is a silent no-op. -/
theorem c2_save_idempotent_on_word (s : List SavedItem) (hs : Reachable s)
    (r1 r2 : DictionaryResult) (id1 id2 : String) (hw : r1.word = r2.word) :
    wordCount (saveItem (saveItem s r1 id1) r2 id2) r1.word = 1 ∧
    wordCount (saveItem (saveItem s r2 id2) r1 id1) r1.word = 1 ∧
    ∀ (r : DictionaryResult) (freshId : String),
      s.any (fun i => i.word == r.word) = true → saveItem s r freshId = s := by
  have hinv := wordCount_le_of_reachable s hs r1.word
  by_cases h : s.any (fun i => i.word == r1.word) = true
  · have h2 : s.any (fun i => i.word == r2.word) = true := by rwa [← hw]
    have hpos : wordCount s r1.word ≠ 0 := by
      intro h0
      rw [(any_word_eq_false_iff s r1.word).mpr h0] at h
      exact Bool.false_ne_true h
    have hone : wordCount s r1.word = 1 := by omega
    refine ⟨?_, ?_, fun r freshId hr => saveItem_of_present s r freshId hr⟩
    · rw [saveItem_of_present s r1 id1 h, saveItem_of_present s r2 id2 h2]
      exact hone
    · rw [saveItem_of_present s r2 id2 h2, saveItem_of_present s r1 id1 h]
      exact hone
  · have h1 : s.any (fun i => i.word == r1.word) = false := by simpa using h
    have h2 : s.any (fun i => i.word == r2.word) = false := by
      rw [← hw]; exact h1
    have hzero : wordCount s r1.word = 0 :=
      (any_word_eq_false_iff s r1.word).mp h1
    refine ⟨?_, ?_, fun r freshId hr => saveItem_of_present s r freshId hr⟩
    · rw [saveItem_of_absent s r1 id1 h1]
      have hany : (withId r1 id1 :: s).any (fun i => i.word == r2.word)
          = true := by
        simp [withId, hw]
      rw [saveItem_of_present _ r2 id2 hany, wordCount_cons]
      simp [withId, hzero]
    · rw [saveItem_of_absent s r2 id2 h2]
      have hany2 : (withId r2 id2 :: s).any (fun i => i.word == r1.word)
          = true := by
        simp [withId, hw]
      rw [saveItem_of_present _ r1 id1 hany2, wordCount_cons]
      simp [withId, ← hw, hzero]

/-- Concrete instantiation of the C2 theorem: two results sharing the
headword "sol", saved onto the empty notebook. -/
theorem c2_witness :
    Reachable [] ∧
    (sampleResult "sol" "first").word = (sampleResult "sol" "second").word ∧
    (wordCount (saveItem (saveItem [] (sampleResult "sol" "first") "idA")
        (sampleResult "sol" "second") "idB")
        (sampleResult "sol" "first").word = 1 ∧
    wordCount (saveItem (saveItem [] (sampleResult "sol" "second") "idB")
        (sampleResult "sol" "first") "idA")
        (sampleResult "sol" "first").word = 1 ∧
    ∀ (r : DictionaryResult) (freshId : String),
      List.any ([] : List SavedItem) (fun i => i.word == r.word) = true →
        saveItem [] r freshId = []) :=
  ⟨Reachable.nil, rfl,
   c2_save_idempotent_on_word [] Reachable.nil
     (sampleResult "sol" "first") (sampleResult "sol" "second")
     "idA" "idB" rfl⟩

/-- Claim C3 fails as stated: starting from a notebook that already holds
an entry for the word "sol", saving three results with distinct words
"sol", "lua", "mar" in that order does not leave those three results as
the first three entries — the "sol" save is a silent no-op, so the third
entry is the pre-existing one, not the result passed to save. -/
theorem c3_counterexample :
    ¬ (((saveItem (saveItem (saveItem
            [withId (sampleResult "sol" "old entry") "id0"]
            (sampleResult "sol" "new entry") "idA")
            (sampleResult "lua" "moon") "idB")
            (sampleResult "mar" "sea") "idC").take 3).map
          (fun i => i.toDictionaryResult)
        = [sampleResult "mar" "sea", sampleResult "lua" "moon",
           sampleResult "sol" "new entry"]) := by decide

/-- Claim C3 (amended): for every initial notebook state containing none
of the three words, saving results A, B, C with pairwise-distinct words in
that order prepends each in turn, so the notebook becomes C, B, A followed
by the untouched original entries in their original relative order. -/
theorem c3_prepend_order (s : List SavedItem) (A B C : DictionaryResult)
    (ia ib ic : String)
    (hA : s.any (fun i => i.word == A.word) = false)
    (hB : s.any (fun i => i.word == B.word) = false)
    (hC : s.any (fun i => i.word == C.word) = false)
    (hAB : A.word ≠ B.word) (hAC : A.word ≠ C.word) (hBC : B.word ≠ C.word) :
    saveItem (saveItem (saveItem s A ia) B ib) C ic =
      withId C ic :: withId B ib :: withId A ia :: s := by
  rw [saveItem_of_absent s A ia hA]
  have hab : (A.word == B.word) = false := beq_eq_false_iff_ne.mpr hAB
  have hac : (A.word == C.word) = false := beq_eq_false_iff_ne.mpr hAC
  have hbc : (B.word == C.word) = false := beq_eq_false_iff_ne.mpr hBC
  have hB1 : (withId A ia :: s).any (fun i => i.word == B.word) = false := by
    simp [withId, hB, hab]
  rw [saveItem_of_absent _ B ib hB1]
  have hC1 : (withId B ib :: withId A ia :: s).any
      (fun i => i.word == C.word) = false := by
    simp [withId, hC, hac, hbc]
  rw [saveItem_of_absent _ C ic hC1]

/-- Concrete instantiation of the amended C3 theorem: three fresh words
saved onto the empty notebook. -/
theorem c3_witness :
    (List.any ([] : List SavedItem) (fun i => i.word == (sampleResult "um" "one").word)
        = false) ∧
    (List.any ([] : List SavedItem) (fun i => i.word == (sampleResult "dois" "two").word)
        = false) ∧
    (List.any ([] : List SavedItem) (fun i => i.word == (sampleResult "tres" "three").word)
        = false) ∧
    (sampleResult "um" "one").word ≠ (sampleResult "dois" "two").word ∧
    (sampleResult "um" "one").word ≠ (sampleResult "tres" "three").word ∧
    (sampleResult "dois" "two").word ≠ (sampleResult "tres" "three").word ∧
    saveItem (saveItem (saveItem [] (sampleResult "um" "one") "i1")
        (sampleResult "dois" "two") "i2") (sampleResult "tres" "three") "i3"
      = [withId (sampleResult "tres" "three") "i3",
         withId (sampleResult "dois" "two") "i2",
         withId (sampleResult "um" "one") "i1"] :=
  ⟨rfl, rfl, rfl, by decide, by decide, by decide,
   c3_prepend_order [] (sampleResult "um" "one") (sampleResult "dois" "two")
     (sampleResult "tres" "three") "i1" "i2" "i3" rfl rfl rfl
     (by decide) (by decide) (by decide)⟩

/-- Claim C10: saving a result whose word is not yet in the notebook is a
pure copy plus id: the new head entry agrees with the input result on
every DictionaryResult field, differs only by the added fresh id, and all
previously saved entries are left unchanged. -/
theorem c10_save_is_pure_copy (s : List SavedItem) (r : DictionaryResult)
    (freshId : String) (h : s.any (fun i => i.word == r.word) = false) :
    saveItem s r freshId = withId r freshId :: s ∧
    (withId r freshId).toDictionaryResult = r ∧
    (withId r freshId).word = r.word ∧
    (withId r freshId).explanation = r.explanation ∧
    (withId r freshId).examples = r.examples ∧
    (withId r freshId).friendlyNote = r.friendlyNote ∧
    (withId r freshId).conjugations = r.conjugations ∧
    (withId r freshId).imageUrl = r.imageUrl ∧
    (withId r freshId).timestamp = r.timestamp ∧
    (withId r freshId).sourceLang = r.sourceLang ∧
    (withId r freshId).targetLang = r.targetLang ∧
    (withId r freshId).id = freshId ∧
    (saveItem s r freshId).tail = s := by
  refine ⟨saveItem_of_absent s r freshId h, rfl, rfl, rfl, rfl, rfl, rfl,
    rfl, rfl, rfl, rfl, rfl, ?_⟩
  rw [saveItem_of_absent s r freshId h, List.tail_cons]

/-- Concrete instantiation of the C10 theorem. -/
theorem c10_witness :
    (List.any ([] : List SavedItem) (fun i => i.word == (sampleResult "mar" "sea").word)
        = false) ∧
    (saveItem [] (sampleResult "mar" "sea") "fresh"
        = [withId (sampleResult "mar" "sea") "fresh"] ∧
      (withId (sampleResult "mar" "sea") "fresh").toDictionaryResult
        = sampleResult "mar" "sea" ∧
      (withId (sampleResult "mar" "sea") "fresh").word
        = (sampleResult "mar" "sea").word ∧
      (withId (sampleResult "mar" "sea") "fresh").explanation
        = (sampleResult "mar" "sea").explanation ∧
      (withId (sampleResult "mar" "sea") "fresh").examples
        = (sampleResult "mar" "sea").examples ∧
      (withId (sampleResult "mar" "sea") "fresh").friendlyNote
        = (sampleResult "mar" "sea").friendlyNote ∧
      (withId (sampleResult "mar" "sea") "fresh").conjugations
        = (sampleResult "mar" "sea").conjugations ∧
      (withId (sampleResult "mar" "sea") "fresh").imageUrl
        = (sampleResult "mar" "sea").imageUrl ∧
      (withId (sampleResult "mar" "sea") "fresh").timestamp
        = (sampleResult "mar" "sea").timestamp ∧
      (withId (sampleResult "mar" "sea") "fresh").sourceLang
        = (sampleResult "mar" "sea").sourceLang ∧
      (withId (sampleResult "mar" "sea") "fresh").targetLang
        = (sampleResult "mar" "sea").targetLang ∧
      (withId (sampleResult "mar" "sea") "fresh").id = "fresh" ∧
      (saveItem [] (sampleResult "mar" "sea") "fresh").tail = []) :=
  ⟨rfl, c10_save_is_pure_copy [] (sampleResult "mar" "sea") "fresh" rfl⟩

/-- The structured payload returned by `lookupWord` in
`services/geminiService.ts` (the `Omit<DictionaryResult, 'imageUrl' |
'timestamp' | 'sourceLang' | 'targetLang'>` part). -/
structure TextData where
  word : String
  explanation : String
  examples : List ExampleSentence
  friendlyNote : String
  conjugations : Option Conjugation
deriving DecidableEq, Repr

/-- One part of the image model's response in `generateConceptImage`:
either it carries `inlineData` (the base64 image bytes) or not. -/
inductive ImagePart where
  | inlineData (data : String)
  | other
deriving DecidableEq, Repr

/-- Outcome of the illustration collaborator call: the request threw, or
it returned a response with a list of parts. -/
inductive ImageOutcome where
  | failure
  | response (parts : List ImagePart)
deriving DecidableEq, Repr

/-- The loop in `generateConceptImage`: return a data URI built from the
first part that carries `inlineData`, else fall through to `undefined`. -/
def firstInlineData : List ImagePart → Option String
  | [] => none
  | ImagePart.inlineData d :: _ => some ("data:image/png;base64," ++ d)
  | ImagePart.other :: rest => firstInlineData rest

/-- `generateConceptImage` from `services/geminiService.ts`: the whole
call is wrapped in try/catch, and any failure returns `undefined`; a
response yields the first inline-data part as a data URI, or `undefined`
when no part carries image data. -/
def generateConceptImage : ImageOutcome → Option String
  | ImageOutcome.failure => none
  | ImageOutcome.response parts => firstInlineData parts

/-- The language pair captured by `handleSearch` in `App.tsx` at the start
of a request: `const reqNative = nativeLang.name; const reqTarget =
targetLang.name;`. -/
structure PendingSearch where
  reqNative : String
  reqTarget : String
deriving DecidableEq, Repr

/-- The emptiness test `!query.trim()` used by the submit handlers: a
string trims to the empty string exactly when every character is
whitespace. -/
def isBlank (s : String) : Bool :=
  s.data.all fun c => c.isWhitespace

/-- The synchronous prefix of `handleSearch` in `App.tsx`: the empty-query
guard `if (!query.trim()) return;` followed by the capture of the
native/target language names in effect at that instant. -/
def startSearch (query nativeLangName targetLangName : String) :
    Option PendingSearch :=
  if isBlank query then none
  else some { reqNative := nativeLangName, reqTarget := targetLangName }

/-- Error classification from the catch block of `handleSearch`
(`src/unnamed/part_000`): a message mentioning "API Key" is surfaced as a
credential error, anything else as the generic retry notice.  The
`includes` test is modelled with `splitOn`. -/
def classifySearchError (msg : String) : String :=
  if (msg.splitOn "API Key").length > 1 then
    "API Key Error: Please check your settings."
  else "Oops! The AI got a bit confused. Try again?"

/-- The completion of `handleSearch` in `App.tsx`: after
`Promise.all([textPromise, imagePromise])` resolves, merge the structured
fields with the image result, `Date.now()`, and the captured
`reqNative`/`reqTarget`.  `liveNative` and `liveTarget` are the UI's
language selection at completion time; the code never reads them at this
point (it only uses the captured constants), so they are deliberately
unused.  A definition failure is caught and classified. -/
def completeSearch (p : PendingSearch) (liveNative liveTarget : String)
    (defOutcome : Except String TextData) (imgOutcome : ImageOutcome)
    (now : Nat) : Except String DictionaryResult :=
  match defOutcome with
  | Except.error e => Except.error (classifySearchError e)
  | Except.ok t =>
      Except.ok
        { word := t.word
          explanation := t.explanation
          examples := t.examples
          friendlyNote := t.friendlyNote
          conjugations := t.conjugations
          imageUrl := generateConceptImage imgOutcome
          timestamp := now
          sourceLang := p.reqNative
          targetLang := p.reqTarget }

/-- Claim C1: a lookup started on a non-empty query either produces a
result whose `sourceLang`/`targetLang` are exactly the language names in
effect when the lookup started — unchanged by whatever the live UI
selection is at completion time — or fails with a classified error. -/
theorem c1_lookup_captures_languages (query n0 t0 n1 t1 : String)
    (hq : isBlank query = false)
    (d : Except String TextData) (img : ImageOutcome) (now : Nat) :
    ∃ p, startSearch query n0 t0 = some p ∧
      completeSearch p n1 t1 d img now = completeSearch p n0 t0 d img now ∧
      (∀ r, completeSearch p n1 t1 d img now = Except.ok r →
        r.sourceLang = n0 ∧ r.targetLang = t0) ∧
      (∀ e, completeSearch p n1 t1 d img now = Except.error e →
        ∃ msg, e = classifySearchError msg) := by
  refine ⟨{ reqNative := n0, reqTarget := t0 }, ?_, rfl, ?_, ?_⟩
  · simp [startSearch, hq]
  · intro r hr
    cases d with
    | error e => simp [completeSearch] at hr
    | ok t =>
        simp only [completeSearch, Except.ok.injEq] at hr
        rw [← hr]
        exact ⟨rfl, rfl⟩
  · intro e he
    cases d with
    | error msg =>
        simp only [completeSearch, Except.error.injEq] at he
        exact ⟨msg, he.symm⟩
    | ok t => simp [completeSearch] at he

/-- A small concrete definition payload used in concrete evaluations. -/
def sampleTextData : TextData :=
  { word := "hola", explanation := "a greeting", examples := [],
    friendlyNote := "", conjugations := none }

/-- Concrete instantiation of the C1 theorem: a lookup of "hola" started
with English/Spanish while the UI later switches to French/German. -/
theorem c1_witness :
    (isBlank "hola" = false) ∧
    (∃ p, startSearch "hola" "English" "Spanish" = some p ∧
      completeSearch p "French" "German" (Except.ok sampleTextData)
          ImageOutcome.failure 7
        = completeSearch p "English" "Spanish" (Except.ok sampleTextData)
          ImageOutcome.failure 7 ∧
      (∀ r, completeSearch p "French" "German" (Except.ok sampleTextData)
          ImageOutcome.failure 7 = Except.ok r →
        r.sourceLang = "English" ∧ r.targetLang = "Spanish") ∧
      (∀ e, completeSearch p "French" "German" (Except.ok sampleTextData)
          ImageOutcome.failure 7 = Except.error e →
        ∃ msg, e = classifySearchError msg)) :=
  ⟨by decide,
   c1_lookup_captures_languages "hola" "English" "Spanish" "French" "German"
     (by decide) (Except.ok sampleTextData) ImageOutcome.failure 7⟩

/-- Claim C4: when the definition collaborator succeeds and the
illustration collaborator fails, the lookup still succeeds and the
produced result's `imageUrl` is absent. -/
theorem c4_illustration_failure_degrades (p : PendingSearch)
    (n1 t1 : String) (t : TextData) (now : Nat) :
    ∃ r, completeSearch p n1 t1 (Except.ok t) ImageOutcome.failure now
        = Except.ok r ∧ r.imageUrl = none := by
  exact ⟨_, rfl, rfl⟩

/-- Session state touched by `handleSearch` in `App.tsx`: the transient
current result and the loading flag. -/
structure AppState where
  currentResult : Option DictionaryResult
  loading : Bool
deriving DecidableEq, Repr

/-- The observable steps of `handleSearch` in `App.tsx` as they land on
the session state: a submit (`setLoading(true); setCurrentResult(null)`),
a successful completion (`setCurrentResult(...)` then `setLoading(false)`
in `finally`), or a caught failure (`finally` only resets loading). -/
inductive SearchEvent where
  | start
  | complete (r : DictionaryResult)
  | completeFailed
deriving DecidableEq, Repr

/-- State update performed by each `handleSearch` step.  A completion
applies its result unconditionally: the code carries no per-request
token or identity check. -/
def applyEvent (s : AppState) : SearchEvent → AppState
  | SearchEvent.start => { currentResult := none, loading := true }
  | SearchEvent.complete r => { currentResult := some r, loading := false }
  | SearchEvent.completeFailed => { s with loading := false }

/-- Folding a sequence of `handleSearch` steps over the session state. -/
def runEvents (s : AppState) (events : List SearchEvent) : AppState :=
  events.foldl applyEvent s

/-- Claim C9 fails as stated: two overlapping lookups where the first
request's response arrives after the second request's response.  The
stale first response is not discarded — it is applied and ends up as the
current result, displacing the newer one. -/
theorem c9_counterexample :
    (runEvents { currentResult := none, loading := false }
        [SearchEvent.start, SearchEvent.start,
         SearchEvent.complete (sampleResult "adeus" "second request"),
         SearchEvent.complete (sampleResult "hola" "first request")]
      ).currentResult = some (sampleResult "hola" "first request") ∧
    sampleResult "hola" "first request"
      ≠ sampleResult "adeus" "second request" := by
  exact ⟨rfl, by decide⟩

/-- Claim C9 (amended): there is no per-request identity check; every
lookup completion unconditionally overwrites the current result, so
whichever response is applied last wins, stale or not. -/
theorem c9_last_write_wins (s : AppState) (events : List SearchEvent)
    (r : DictionaryResult) :
    (runEvents s (events ++ [SearchEvent.complete r])).currentResult
      = some r ∧
    applyEvent s (SearchEvent.complete r)
      = { currentResult := some r, loading := false } := by
  constructor
  · rw [runEvents, List.foldl_append]
    rfl
  · rfl

/-- Chat message role, from `types.ts` (`'user' | 'model'`). -/
inductive ChatRole where
  | user
  | model
deriving DecidableEq, Repr

/-- Chat message, from `types.ts` (`ChatMessage`). -/
structure ChatMessage where
  role : ChatRole
  text : String
deriving DecidableEq, Repr

/-- Outcome of one `getChatResponse` call: the collaborator replied, or
the awaited call threw. -/
inductive SendOutcome where
  | success (reply : String)
  | failure
deriving DecidableEq, Repr

/-- `handleChatSubmit` from `components/ResultCard.tsx`: the blank-input
guard `if (!chatInput.trim()) return;`, then the user message is appended
to the transcript before the collaborator call; on success the reply is
appended as well, while the catch block appends nothing. -/
def handleChatSubmit (chatHistory : List ChatMessage) (chatInput : String)
    (outcome : SendOutcome) : List ChatMessage :=
  if isBlank chatInput then chatHistory
  else
    match outcome with
    | SendOutcome.success reply =>
        chatHistory ++ [{ role := ChatRole.user, text := chatInput },
                        { role := ChatRole.model, text := reply }]
    | SendOutcome.failure =>
        chatHistory ++ [{ role := ChatRole.user, text := chatInput }]

/-- A sequence of chat submissions folded over the transcript. -/
def runChat (chatHistory : List ChatMessage)
    (sends : List (String × SendOutcome)) : List ChatMessage :=
  sends.foldl (fun h p => handleChatSubmit h p.1 p.2) chatHistory

lemma runChat_success_length :
    ∀ (sends : List (String × String)) (chatHistory : List ChatMessage),
      (∀ p ∈ sends, isBlank p.1 = false) →
      (runChat chatHistory
          (sends.map fun p => (p.1, SendOutcome.success p.2))).length
        = chatHistory.length + 2 * sends.length := by
  intro sends
  induction sends with
  | nil => intro h _; simp [runChat]
  | cons a l ih =>
      intro h hne
      have ha : isBlank a.1 = false := hne a (List.mem_cons_self a l)
      have hl : ∀ p ∈ l, isBlank p.1 = false :=
        fun p hp => hne p (List.mem_cons_of_mem a hp)
      have hstep : runChat h ((a :: l).map fun p =>
            (p.1, SendOutcome.success p.2))
          = runChat (handleChatSubmit h a.1 (SendOutcome.success a.2))
            (l.map fun p => (p.1, SendOutcome.success p.2)) := rfl
      rw [hstep, ih _ hl]
      simp [handleChatSubmit, ha]
      omega

/-- Claim C6: starting from an empty transcript, N successful sends with
non-blank inputs leave the user-visible transcript at exactly 2N messages
(the hidden priming turns live only inside the collaborator call); a
failed send appends the user message and no reply, leaving an odd
length. -/
theorem c6_chat_transcript (sends : List (String × String))
    (hne : ∀ p ∈ sends, isBlank p.1 = false)
    (failInput : String) (hf : isBlank failInput = false) :
    (runChat [] (sends.map fun p => (p.1, SendOutcome.success p.2))).length
        = 2 * sends.length ∧
    handleChatSubmit
        (runChat [] (sends.map fun p => (p.1, SendOutcome.success p.2)))
        failInput SendOutcome.failure
      = runChat [] (sends.map fun p => (p.1, SendOutcome.success p.2))
          ++ [{ role := ChatRole.user, text := failInput }] ∧
    (handleChatSubmit
        (runChat [] (sends.map fun p => (p.1, SendOutcome.success p.2)))
        failInput SendOutcome.failure).length % 2 = 1 := by
  have hlen := runChat_success_length sends [] hne
  simp only [List.length_nil, Nat.zero_add] at hlen
  refine ⟨hlen, ?_, ?_⟩
  · simp [handleChatSubmit, hf]
  · simp only [handleChatSubmit, hf, Bool.false_eq_true, if_false,
      List.length_append, hlen, List.length_cons, List.length_nil]
    omega

/-- Concrete instantiation of the C6 theorem: one successful send
followed by one failed send. -/
theorem c6_witness :
    (∀ p ∈ [("que significa", "it means hello")],
        isBlank (Prod.fst p) = false) ∧
    (isBlank "como se usa" = false) ∧
    ((runChat [] ([("que significa", "it means hello")].map fun p =>
          (p.1, SendOutcome.success p.2))).length
        = 2 * [("que significa", "it means hello")].length ∧
    handleChatSubmit
        (runChat [] ([("que significa", "it means hello")].map fun p =>
          (p.1, SendOutcome.success p.2)))
        "como se usa" SendOutcome.failure
      = runChat [] ([("que significa", "it means hello")].map fun p =>
          (p.1, SendOutcome.success p.2))
          ++ [{ role := ChatRole.user, text := "como se usa" }] ∧
    (handleChatSubmit
        (runChat [] ([("que significa", "it means hello")].map fun p =>
          (p.1, SendOutcome.success p.2)))
        "como se usa" SendOutcome.failure).length % 2 = 1) :=
  ⟨by decide, by decide,
   c6_chat_transcript [("que significa", "it means hello")] (by decide)
     "como se usa" (by decide)⟩

/-- The request content `weaveStory` sends to the story collaborator in
`services/geminiService.ts`: the headwords of the items it receives
(joined into the prompt) and the native language name. -/
structure StoryRequest where
  words : List String
  wordsText : String
  nativeLang : String
deriving DecidableEq, Repr

/-- `weaveStory` from `services/geminiService.ts`:
`const words = items.map(i => i.word).join(", ");` threaded into the
prompt together with `nativeLang`. -/
def weaveStory (items : List SavedItem) (nativeLang : String) :
    StoryRequest :=
  { words := items.map fun i => i.word,
    wordsText := String.intercalate ", " (items.map fun i => i.word),
    nativeLang := nativeLang }

/-- `handleWeaveStory` from `components/NotebookView.tsx`:
`if (items.length < 2) return;` then
`weaveStory(items.slice(0, 10), nativeLangName)`. -/
def handleWeaveStory (items : List SavedItem) (nativeLangName : String) :
    Option StoryRequest :=
  if items.length < 2 then none
  else some (weaveStory (items.take 10) nativeLangName)

/-- Claim C7: story weaving sends at most the first 10 items' headwords
to the collaborator — for an input split as a 10-item front plus any rest
(e.g. a 12-item input), exactly the front's headwords are sent — and the
collaborator is not invoked when fewer than 2 items are provided. -/
theorem c7_weave_story_limits (items front rest : List SavedItem)
    (nl : String) (hfront : front.length = 10) :
    (∀ req, handleWeaveStory items nl = some req →
      req.words = (items.take 10).map (fun i => i.word) ∧
      req.words.length ≤ 10) ∧
    (∀ req, handleWeaveStory (front ++ rest) nl = some req →
      req.words = front.map fun i => i.word) ∧
    (items.length < 2 → handleWeaveStory items nl = none) := by
  refine ⟨?_, ?_, fun h => by simp [handleWeaveStory, h]⟩
  · intro req hreq
    by_cases h : items.length < 2
    · simp [handleWeaveStory, h] at hreq
    · simp only [handleWeaveStory, if_neg h, Option.some.injEq] at hreq
      constructor
      · rw [← hreq]; rfl
      · rw [← hreq]
        simp only [weaveStory, List.length_map, List.length_take]
        exact min_le_left 10 items.length
  · intro req hreq
    have h2 : ¬ (front ++ rest).length < 2 := by
      rw [List.length_append, hfront]; omega
    simp only [handleWeaveStory, if_neg h2, Option.some.injEq] at hreq
    rw [← hreq, ← hfront, List.take_left]
    rfl

/-- A saved item whose headword doubles as its id, for concrete
evaluations. -/
def sampleSaved (w : String) : SavedItem :=
  withId (sampleResult w "") w

/-- The concrete 12-item notebook used by the C7 witness. -/
def twelveItems : List SavedItem :=
  [sampleSaved "w0", sampleSaved "w1", sampleSaved "w2", sampleSaved "w3",
   sampleSaved "w4", sampleSaved "w5", sampleSaved "w6", sampleSaved "w7",
   sampleSaved "w8", sampleSaved "w9", sampleSaved "w10", sampleSaved "w11"]

/-- Concrete instantiation of the C7 theorem on a 12-item notebook split
as first 10 plus last 2. -/
theorem c7_witness :
    (twelveItems.take 10).length = 10 ∧
    ((∀ req, handleWeaveStory twelveItems "English" = some req →
      req.words = (twelveItems.take 10).map (fun i => i.word) ∧
      req.words.length ≤ 10) ∧
    (∀ req, handleWeaveStory (twelveItems.take 10 ++ twelveItems.drop 10)
        "English" = some req →
      req.words = (twelveItems.take 10).map fun i => i.word) ∧
    (twelveItems.length < 2 → handleWeaveStory twelveItems "English"
        = none)) :=
  ⟨by decide,
   c7_weave_story_limits twelveItems (twelveItems.take 10)
     (twelveItems.drop 10) "English" (by decide)⟩

/-- `AppSettings` from `types.ts` / `src/unnamed/part_000`. -/
structure AppSettings where
  apiKey : String
  textModel : String
deriving DecidableEq, Repr

/-- `DEFAULT_SETTINGS` from `constants.ts`. -/
def DEFAULT_SETTINGS : AppSettings :=
  { apiKey := "", textModel := "gemini-2.5-flash" }

/-- The `useState` initializer for `savedItems` in `App.tsx`:
`const saved = localStorage.getItem('lingopop_saved');`
`return saved ? JSON.parse(saved) : [];`
`stored` is the value under the key (absent = `none`); `parse` models
`JSON.parse`, whose exception propagates out of the initializer — the
conditional guards only falsiness (absence or the empty string), not
parse failure. -/
def loadSavedItems (parse : String → Except String (List SavedItem))
    (stored : Option String) : Except String (List SavedItem) :=
  match stored with
  | none => Except.ok []
  | some s => if s == "" then Except.ok [] else parse s

/-- The `useState` initializer for `settings` in `src/unnamed/part_000`:
`const saved = localStorage.getItem('lingopop_settings');`
`return saved ? JSON.parse(saved) : DEFAULT_SETTINGS;` -/
def loadSettings (parse : String → Except String AppSettings)
    (stored : Option String) : Except String AppSettings :=
  match stored with
  | none => Except.ok DEFAULT_SETTINGS
  | some s => if s == "" then Except.ok DEFAULT_SETTINGS else parse s

/-- Claim C5 is right about absent values but the code violates it on
corrupt ones: an absent notebook loads as the empty collection and absent
settings load as the defaults, but a non-empty stored string on which
`JSON.parse` throws makes store construction itself throw — the parse
error propagates out of both initializers instead of falling back. -/
theorem c5_corrupt_persistence_propagates
    (parseItems : String → Except String (List SavedItem))
    (parseSettings : String → Except String AppSettings)
    (s e1 e2 : String) (hs : (s == "") = false)
    (hpi : parseItems s = Except.error e1)
    (hps : parseSettings s = Except.error e2) :
    loadSavedItems parseItems (some s) = Except.error e1 ∧
    loadSettings parseSettings (some s) = Except.error e2 ∧
    loadSavedItems parseItems none = Except.ok [] ∧
    loadSettings parseSettings none = Except.ok DEFAULT_SETTINGS := by
  refine ⟨?_, ?_, rfl, rfl⟩
  · simp [loadSavedItems, hs, hpi]
  · simp [loadSettings, hs, hps]

/-- Concrete instantiation of the C5 theorem: a corrupt stored string on
which the modelled `JSON.parse` throws a syntax error. -/
theorem c5_witness :
    (("not valid json" == "") = false) ∧
    ((fun t => (Except.error ("SyntaxError: " ++ t) :
        Except String (List SavedItem))) "not valid json"
      = Except.error "SyntaxError: not valid json") ∧
    ((fun t => (Except.error ("SyntaxError: " ++ t) :
        Except String AppSettings)) "not valid json"
      = Except.error "SyntaxError: not valid json") ∧
    (loadSavedItems
        (fun t => Except.error ("SyntaxError: " ++ t)) (some "not valid json")
      = Except.error "SyntaxError: not valid json" ∧
    loadSettings
        (fun t => Except.error ("SyntaxError: " ++ t)) (some "not valid json")
      = Except.error "SyntaxError: not valid json" ∧
    loadSavedItems (fun t => Except.error ("SyntaxError: " ++ t)) none
      = Except.ok [] ∧
    loadSettings (fun t => Except.error ("SyntaxError: " ++ t)) none
      = Except.ok DEFAULT_SETTINGS) :=
  ⟨by decide, rfl, rfl,
   c5_corrupt_persistence_propagates
     (fun t => Except.error ("SyntaxError: " ++ t))
     (fun t => Except.error ("SyntaxError: " ++ t))
     "not valid json" "SyntaxError: not valid json"
     "SyntaxError: not valid json" (by decide) rfl rfl⟩

end LingoPop
